import Mathlib

/-!
Verification of `tumdlr/containers.py`: Tumblr post containers and photo
file-path resolution.

Modelling conventions:
* Raw API responses are modelled with a typed schema (`RawPost`, `PhotoRec`):
  an `Option` field stands for a present/absent dict key.  Photo size records
  are modelled as insertion-ordered association lists (`SizeRec`), because the
  source both reads and writes arbitrary keys on them in place
  (`best_size['page_no'] = ...`, line 114).
* Fallible Python code is modelled with `Except PyErr`; the three Python
  exception classes the modelled paths can raise are the constructors of
  `PyErr`.
* Since the photo loop mutates size records that live inside the input
  mapping, parsing returns the parsed entity together with the raw mapping as
  it stands after parsing.
* The title attribute can be the Python `None` object, and the source hands
  that very object to `sanitize_filename` in the unpaginated branch
  (line 224), so the sanitizer is modelled over `Option String`.
-/

/-- Python primitive values that can occur in a photo size record. -/
inductive PyVal where
  | bool (b : Bool)
  | int (n : Int)
  | str (s : String)
  deriving DecidableEq, Repr

/-- A Python dict with string keys, as an insertion-ordered association list. -/
abbrev SizeRec := List (String × PyVal)

/-- Python `d.get(k)` (and `d[k]` when combined with an error on `none`):
the first binding of `k`. -/
def dictGet {α : Type} (d : List (String × α)) (k : String) : Option α :=
  match d with
  | [] => Option.none
  | (k', v) :: rest => if k' = k then some v else dictGet rest k

/-- Python `d[k] = v`: overwrite the existing binding in place, keeping its
insertion position, else append the new binding at the end. -/
def dictSet {α : Type} (d : List (String × α)) (k : String) (v : α) :
    List (String × α) :=
  match d with
  | [] => [(k, v)]
  | (k', v') :: rest =>
    if k' = k then (k', v) :: rest else (k', v') :: dictSet rest k v

/-- Python exceptions raised by the modelled code paths. -/
inductive PyErr where
  | keyError
  | typeError
  | valueError
  deriving DecidableEq, Repr

/-- One record of the `photos` list of a photo post, with the two keys
`TumblrPhotoSet._parse_post` consumes. -/
structure PhotoRec where
  original_size : Option SizeRec
  alt_sizes : Option (List SizeRec)
  deriving DecidableEq, Repr

/-- Typed schema of a raw post API response; an `Option.none` field means the
key is absent from the mapping. -/
structure RawPost where
  id : Option Int
  type : Option String
  post_url : Option String
  tags : Option (List String)
  note_count : Option Int
  date : Option String
  caption : Option String
  title : Option String
  photos : Option (List PhotoRec)
  deriving DecidableEq, Repr

/-- Fields of `TumblrPost` after `TumblrPost._parse_post` (lines 71-77).
`tags` keeps the raw list (the source stores `set(tags)`; no claim depends on
the set structure), URLs are kept as their strings, and `blog` is the parent
blog's name. -/
structure TumblrPost where
  id : Int
  type : String
  url : Option String
  tags : List String
  note_count : Option Int
  post_date : String
  blog : String
  deriving DecidableEq, Repr

/-- `TumblrPost._parse_post` (lines 71-77): `id`, `type` and `date` are read
with `self._post[...]` and raise `KeyError` when absent; `post_url`, `tags`
and `note_count` use `.get` with a default and never fail. -/
def parsePost (blogName : String) (p : RawPost) : Except PyErr TumblrPost :=
  match p.id, p.type, p.date with
  | some i, some t, some d =>
    Except.ok { id := i, type := t, url := p.post_url, tags := p.tags.getD [],
                note_count := p.note_count, post_date := d, blog := blogName }
  | _, _, _ => Except.error PyErr.keyError

/-- Fields of `TumblrPhoto` (lines 183-194).  `page_no` is `some n` when the
size record holds an int and `Option.none` for the `False` sentinel written by
the parser for standalone photos (`self._data.get('page_no', False)`): an int
or `False` are the only values the parser ever stores under that key. -/
structure TumblrPhoto where
  url : String
  width : Option Int
  height : Option Int
  page_no : Option Int
  deriving DecidableEq, Repr

/-- `self._data.get(k)` when an int is expected (`width`, `height`,
`page_no`). -/
def intField (d : SizeRec) (k : String) : Option Int :=
  match dictGet d k with
  | some (PyVal.int n) => some n
  | _ => Option.none

/-- `TumblrFile.__init__` plus `TumblrPhoto.__init__` (lines 129-141 and
183-194): `URL(self._data['url'])` raises `KeyError` when the `url` key is
absent (a non-string value would fail inside `URL` and is mapped to
`TypeError`); the remaining fields use `.get` and never fail. -/
def mkTumblrPhoto (bs : SizeRec) : Except PyErr TumblrPhoto :=
  match dictGet bs "url" with
  | some (PyVal.str u) =>
    Except.ok { url := u, width := intField bs "width",
                height := intField bs "height", page_no := intField bs "page_no" }
  | some _ => Except.error PyErr.typeError
  | Option.none => Except.error PyErr.keyError

/-- Line 113, fallback branch: `max(photo['alt_sizes'], key='width')`.
The `key` argument is the string `'width'`, not a callable, so for any
non-empty list the `max` builtin raises `TypeError` when it tries to call the
key on the first element; for an empty list it raises `ValueError`
(max of empty sequence), and a missing `alt_sizes` key raises `KeyError`
first. -/
def pyMaxWidthStrKey (alt : Option (List SizeRec)) : Except PyErr SizeRec :=
  match alt with
  | Option.none => Except.error PyErr.keyError
  | some [] => Except.error PyErr.valueError
  | some (_ :: _) => Except.error PyErr.typeError

/-- Line 113: `photo.get('original_size') or max(photo['alt_sizes'], key='width')`.
A present, non-empty `original_size` dict is truthy and is selected; otherwise
the `max` call runs (and fails, see `pyMaxWidthStrKey`). -/
def selectBestSize (photo : PhotoRec) : Except PyErr SizeRec :=
  match photo.original_size with
  | some s => if s.isEmpty then pyMaxWidthStrKey photo.alt_sizes else Except.ok s
  | Option.none => pyMaxWidthStrKey photo.alt_sizes

/-- Lines 112-115 for a single photo record: select the best size, write
`page_no` into that record in place, and build the child `TumblrPhoto`.
Because selection only succeeds when it returns the photo's `original_size`
dict, the in-place write of line 114 lands in that record of the input
mapping; the second component is the photo record as the input mapping holds
it afterwards. -/
def processPhoto (isPhotoset : Bool) (pageNo : Nat) (photo : PhotoRec) :
    Except PyErr (TumblrPhoto × PhotoRec) :=
  match selectBestSize photo with
  | Except.error e => Except.error e
  | Except.ok bs =>
    let bs' := dictSet bs "page_no"
      (if isPhotoset then PyVal.int (Int.ofNat pageNo) else PyVal.bool false)
    match mkTumblrPhoto bs' with
    | Except.error e => Except.error e
    | Except.ok tp => Except.ok (tp, { photo with original_size := some bs' })

/-- The `for page_no, photo in enumerate(photos, 1)` loop of lines 112-115,
started at page `pageNo`. -/
def parsePhotosList (isPhotoset : Bool) : Nat → List PhotoRec →
    Except PyErr (List TumblrPhoto × List PhotoRec)
  | _, [] => Except.ok ([], [])
  | pageNo, photo :: rest =>
    match processPhoto isPhotoset pageNo photo with
    | Except.error e => Except.error e
    | Except.ok (tp, rec) =>
      match parsePhotosList isPhotoset (pageNo + 1) rest with
      | Except.error e => Except.error e
      | Except.ok (tps, recs) => Except.ok (tp :: tps, rec :: recs)

/-- Fields of `TumblrPhotoSet` after construction. -/
structure TumblrPhotoSet where
  id : Int
  type : String
  url : Option String
  tags : List String
  note_count : Option Int
  post_date : String
  blog : String
  title : Option String
  files : List TumblrPhoto
  deriving DecidableEq, Repr

/-- `TumblrPhotoSet._parse_post` (lines 102-115): base parsing, the title
fallback `self._post.get('caption', self._post.get('title'))` of line 107,
and the photo loop with `is_photoset = (len(photos) > 1)`.  Also returns the
raw mapping as it stands afterwards (the loop has written `page_no` into the
selected size records in place). -/
def photoSetParsePost (blogName : String) (p : RawPost) :
    Except PyErr (TumblrPhotoSet × RawPost) :=
  match parsePost blogName p with
  | Except.error e => Except.error e
  | Except.ok base =>
    match parsePhotosList (decide (1 < (p.photos.getD []).length)) 1
        (p.photos.getD []) with
    | Except.error e => Except.error e
    | Except.ok (tps, recs) =>
      Except.ok
        ({ id := base.id, type := base.type, url := base.url, tags := base.tags,
           note_count := base.note_count, post_date := base.post_date,
           blog := base.blog,
           title := match p.caption with
             | some c => some c
             | Option.none => p.title,
           files := tps },
         { p with photos := p.photos.map (fun _ => recs) })

/-- `TumblrPhotoSet.__init__` (lines 91-100): `super().__init__` runs
`self._parse_post()` (which sets `self.title` per the line-107 fallback), and
then line 100 executes `self.title = None`, overwriting whatever
`_parse_post` computed.  A constructed `TumblrPhotoSet` therefore always has
an unset title. -/
def parsePhotoSet (blogName : String) (p : RawPost) :
    Except PyErr (TumblrPhotoSet × RawPost) :=
  (photoSetParsePost blogName p).map
    (fun r => ({ r.1 with title := Option.none }, r.2))

/-- The CLI request context consumed by `filepath`: the configured save root
and the three categorization toggles. -/
structure CliContext where
  savePath : String
  catUser : Bool
  catPostType : Bool
  catPhotosets : Bool
  deriving DecidableEq, Repr

/-- Python truthiness of the `page_no` attribute (`if self.page_no:`):
the `False` sentinel (modelled `Option.none`) and `0` are falsy, any other
int is truthy. -/
def pageTruthy : Option Int → Bool
  | Option.none => false
  | some n => n != 0

/-- Python `str(...)` of the title object as interpolated by
`'p{pn}_{pt}'.format(...)`: a string formats as itself and the `None` object
as the literal `None`. -/
def pyStrOfTitle : Option String → String
  | some s => s
  | Option.none => "None"

/-- Decimal rendering of `page_no` for the filename and the progress
annotation (only reached when the page number is truthy, hence never the
`None` branch). -/
def pageStr : Option Int → String
  | some n => toString n
  | Option.none => "None"

/-- Body of `TumblrFile.filepath` (lines 163-178): the save root, then
optionally the sanitized blog name, then optionally the fixed `photos`
segment, as the list of parts of the accumulated `pathlib` path.  The
method's `request_data` parameter is unused by this body and is omitted
here.  In CPython this body is never reached from `TumblrPhoto.filepath`:
the call at line 208 passes only the context and raises `TypeError` first
(see `photoFilepath`); this definition and the ones building on it model
the composition logic the body spells out, as evidence of what the dead
code would compute. -/
def fileBasedir (san : Option String → String) (ctx : CliContext)
    (ps : TumblrPhotoSet) : List String :=
  let base := [ctx.savePath]
  let base := if ctx.catUser then base ++ [san (some ps.blog)] else base
  if ctx.catPostType then base ++ ["photos"] else base

/-- The filename segment of `TumblrPhoto.filepath` (lines 218-224):
`p<page>_<title>` through `sanitize_filename` when the page number is truthy,
else the sanitized title — the title object itself, possibly `None`, is what
the source hands to the sanitizer in that branch. -/
def filenameSeg (san : Option String → String) (ps : TumblrPhotoSet)
    (photo : TumblrPhoto) : String :=
  if pageTruthy photo.page_no then
    san (some ("p" ++ pageStr photo.page_no ++ "_" ++ pyStrOfTitle ps.title))
  else
    san ps.title

/-- All path segments the statements of `TumblrPhoto.filepath` after the
line-208 call would compose (lines 207-224): the base directory, the
sanitized post id when the photo is paginated and the photoset toggle is on
(lines 213-215), then the filename segment.  Unreachable in CPython — the
line-208 call raises before any of these statements run (see
`photoFilepath`). -/
def photoFilepathSegs (san : Option String → String) (ctx : CliContext)
    (ps : TumblrPhotoSet) (photo : TumblrPhoto) : List String :=
  let base := fileBasedir san ctx ps
  let base := if pageTruthy photo.page_no && ctx.catPhotosets then
      base ++ [san (some (toString ps.id))]
    else base
  base ++ [filenameSeg san ps photo]

/-- `os.path.splitext(p)[1]`: the extension of the final path component,
including the dot; leading dots of the component do not start an
extension.  Computed over the character list. -/
def splitextExt (s : String) : String :=
  let base := (s.data.reverse.takeWhile (fun c => c != '/')).reverse
  let stripped := base.dropWhile (fun c => c == '.')
  if stripped.contains '.' then
    String.mk ('.' :: (stripped.reverse.takeWhile (fun c => c != '.')).reverse)
  else ""

/-- The string line 227 of `TumblrPhoto.filepath` would return: the joined
path plus the extension taken verbatim from the source URL.  Unreachable in
CPython for the same reason as `photoFilepathSegs`. -/
def photoFilepathStr (san : Option String → String) (ctx : CliContext)
    (ps : TumblrPhotoSet) (photo : TumblrPhoto) : String :=
  String.intercalate "/" (photoFilepathSegs san ctx ps photo)
    ++ splitextExt photo.url

/-- The composition logic of `TumblrPhoto.filepath` past line 208
(lines 210-227): the path it would return together with the caller's
`progress_data` dict after the `Caption` write of line 210 and, for
paginated photos, the `Photoset Page` write of lines 221-222.  Unreachable
in CPython: `photoFilepath` below is the method's actual call behaviour;
this definition only evidences what the dead statements would compute. -/
def photoFilepathRun (san : Option String → String) (ctx : CliContext)
    (ps : TumblrPhotoSet) (photo : TumblrPhoto)
    (progress : List (String × Option String)) :
    String × List (String × Option String) :=
  let progress := dictSet progress "Caption" ps.title
  let progress := if pageTruthy photo.page_no then
      dictSet progress "Photoset Page"
        (some (pageStr photo.page_no ++ " / " ++ toString ps.files.length))
    else progress
  (photoFilepathStr san ctx ps photo, progress)

/-- The actual call semantics of `TumblrPhoto.filepath` (lines 196-227).
Its first statement after the assert, `super().filepath(context)` at
line 208, invokes `TumblrFile.filepath`, whose signature
`def filepath(self, context, request_data)` (line 154) has a third mandatory
parameter with no default; the call supplies only the context, so CPython
raises `TypeError` (missing required positional argument `request_data`) on
every invocation — before the `Caption` write of line 210 and before any
path segment is composed.  No input reaches the rest of the body, which is
modelled separately by `photoFilepathRun`. -/
def photoFilepath (_san : Option String → String) (_ctx : CliContext)
    (_ps : TumblrPhotoSet) (_photo : TumblrPhoto)
    (_progress : List (String × Option String)) :
    Except PyErr (String × List (String × Option String)) :=
  Except.error PyErr.typeError

/-- Modelled from the spec: `sanitize_filename` lives in `tumdlr.downloader`,
which is not under `src/`.  The spec describes it as a total
`string -> string` collaborator that returns its argument made safe for use
as a path segment; we model it as the identity, adequate for the already-safe
segments exercised by the concrete claims.  A `None` title (possible at the
call of line 224) is outside the stated contract and is mapped to the empty
string; no claim verdict depends on that case. -/
def sanitizeModel : Option String → String
  | some s => s
  | Option.none => ""

/-- Boolean success test for `Except`. -/
def isOkB {ε : Type u} {α : Type v} : Except ε α → Bool
  | Except.ok _ => true
  | Except.error _ => false

/-- Decidable equality on `Except`, for evaluating concrete parse results. -/
instance {ε : Type u} {α : Type v} [DecidableEq ε] [DecidableEq α] :
    DecidableEq (Except ε α)
  | Except.ok x, Except.ok y =>
    if h : x = y then isTrue (by rw [h])
    else isFalse (by intro hc; cases hc; exact h rfl)
  | Except.ok x, Except.error f => isFalse (by intro hc; cases hc)
  | Except.error e, Except.ok y => isFalse (by intro hc; cases hc)
  | Except.error e, Except.error f =>
    if h : e = f then isTrue (by rw [h])
    else isFalse (by intro hc; cases hc; exact h rfl)

theorem dictGet_dictSet_self {α : Type} (d : List (String × α)) (k : String)
    (v : α) : dictGet (dictSet d k v) k = some v := by
  induction d with
  | nil => simp [dictGet, dictSet]
  | cons hd tl ih =>
    obtain ⟨k', v'⟩ := hd
    by_cases h : k' = k <;> simp [dictGet, dictSet, h, ih]

theorem pyMaxWidthStrKey_ne_ok (alt : Option (List SizeRec)) (s : SizeRec) :
    pyMaxWidthStrKey alt ≠ Except.ok s := by
  cases alt with
  | none => simp [pyMaxWidthStrKey]
  | some l => cases l <;> simp [pyMaxWidthStrKey]

theorem selectBestSize_ok (photo : PhotoRec) (s : SizeRec)
    (h : selectBestSize photo = Except.ok s) : photo.original_size = some s := by
  unfold selectBestSize at h
  split at h
  next t ht =>
    split at h
    · exact absurd h (pyMaxWidthStrKey_ne_ok _ _)
    · cases h; exact ht
  next ht => exact absurd h (pyMaxWidthStrKey_ne_ok _ _)

theorem mkTumblrPhoto_ok (bs : SizeRec) (tp : TumblrPhoto)
    (h : mkTumblrPhoto bs = Except.ok tp) :
    tp.page_no = intField bs "page_no" := by
  unfold mkTumblrPhoto at h
  cases hu : dictGet bs "url" with
  | none => rw [hu] at h; cases h
  | some v =>
    rw [hu] at h
    cases v with
    | str u => cases h; rfl
    | bool b => cases h
    | int n => cases h

theorem processPhoto_ok (isPs : Bool) (k : Nat) (photo : PhotoRec)
    (tp : TumblrPhoto) (rec : PhotoRec)
    (h : processPhoto isPs k photo = Except.ok (tp, rec)) :
    tp.page_no = (if isPs then some (Int.ofNat k) else Option.none)
    ∧ rec.alt_sizes = photo.alt_sizes
    ∧ ∃ s, photo.original_size = some s
        ∧ rec.original_size = some (dictSet s "page_no"
            (if isPs then PyVal.int (Int.ofNat k) else PyVal.bool false)) := by
  unfold processPhoto at h
  cases hbs : selectBestSize photo with
  | error e => rw [hbs] at h; cases h
  | ok bs =>
    rw [hbs] at h
    simp only at h
    cases hmk : mkTumblrPhoto (dictSet bs "page_no"
        (if isPs then PyVal.int (Int.ofNat k) else PyVal.bool false)) with
    | error e => rw [hmk] at h; cases h
    | ok tp' =>
      rw [hmk] at h
      cases h
      refine ⟨?_, rfl, bs, selectBestSize_ok _ _ hbs, rfl⟩
      rw [mkTumblrPhoto_ok _ _ hmk]
      unfold intField
      rw [dictGet_dictSet_self]
      cases isPs <;> simp

theorem pageMapShift (isPs : Bool) (k n : Nat) :
    (List.range (n + 1)).map
        (fun j => if isPs then some (Int.ofNat (k + j)) else (Option.none : Option Int))
      = (if isPs then some (Int.ofNat k) else Option.none)
        :: (List.range n).map
            (fun j => if isPs then some (Int.ofNat (k + 1 + j)) else (Option.none : Option Int)) := by
  have hfun : ((fun j => if isPs then some (Int.ofNat (k + j)) else (Option.none : Option Int)) ∘ Nat.succ)
      = fun j => if isPs then some (Int.ofNat (k + 1 + j)) else (Option.none : Option Int) := by
    funext j
    cases isPs
    · rfl
    · show some (Int.ofNat (k + (j + 1))) = some (Int.ofNat (k + 1 + j))
      have e : k + (j + 1) = k + 1 + j := by omega
      rw [e]
  rw [List.range_succ_eq_map, List.map_cons, List.map_map, hfun]
  simp

theorem parsePhotosList_ok (isPs : Bool) (photos : List PhotoRec) :
    ∀ (k : Nat) (tps : List TumblrPhoto) (recs : List PhotoRec),
      parsePhotosList isPs k photos = Except.ok (tps, recs) →
      (tps.map (fun f => f.page_no)
         = (List.range photos.length).map
             (fun j => if isPs then some (Int.ofNat (k + j)) else Option.none))
      ∧ recs.length = photos.length
      ∧ (∀ i q q', photos[i]? = some q → recs[i]? = some q' →
           q'.alt_sizes = q.alt_sizes
           ∧ ∃ s, q.original_size = some s
               ∧ q'.original_size = some (dictSet s "page_no"
                   (if isPs then PyVal.int (Int.ofNat (k + i)) else PyVal.bool false))) := by
  induction photos with
  | nil =>
    intro k tps recs h
    simp only [parsePhotosList, Except.ok.injEq, Prod.mk.injEq] at h
    obtain ⟨h1, h2⟩ := h
    subst h1; subst h2
    refine ⟨by simp, rfl, ?_⟩
    intro i q q' hq hq'
    simp at hq
  | cons p rest ih =>
    intro k tps recs h
    unfold parsePhotosList at h
    cases hp : processPhoto isPs k p with
    | error e => rw [hp] at h; cases h
    | ok r =>
      obtain ⟨tp, rec⟩ := r
      rw [hp] at h
      simp only at h
      cases hr : parsePhotosList isPs (k + 1) rest with
      | error e => rw [hr] at h; cases h
      | ok rr =>
        obtain ⟨tps', recs'⟩ := rr
        rw [hr] at h
        cases h
        obtain ⟨hpage, halt, hmut⟩ := processPhoto_ok _ _ _ _ _ hp
        obtain ⟨hmap, hlen, hidx⟩ := ih (k + 1) tps' recs' hr
        refine ⟨?_, by simp [hlen], ?_⟩
        · rw [List.map_cons, hpage, hmap, List.length_cons, pageMapShift]
        · intro i q q' hq hq'
          cases i with
          | zero =>
            simp only [List.getElem?_cons_zero, Option.some.injEq] at hq hq'
            subst hq; subst hq'
            refine ⟨halt, ?_⟩
            simpa using hmut
          | succ i =>
            simp only [List.getElem?_cons_succ] at hq hq'
            obtain ⟨ha, s, hs1, hs2⟩ := hidx i q q' hq hq'
            refine ⟨ha, s, hs1, ?_⟩
            rw [hs2]
            have e : k + 1 + i = k + (i + 1) := by omega
            rw [e]

theorem photoSetParsePost_shape (blogName : String) (p : RawPost)
    (ps0 : TumblrPhotoSet) (p' : RawPost)
    (h : photoSetParsePost blogName p = Except.ok (ps0, p')) :
    ∃ recs,
      parsePhotosList (decide (1 < (p.photos.getD []).length)) 1 (p.photos.getD [])
          = Except.ok (ps0.files, recs)
      ∧ p' = { p with photos := p.photos.map (fun _ => recs) }
      ∧ ps0.title = (match p.caption with
          | some c => some c
          | Option.none => p.title) := by
  unfold photoSetParsePost at h
  cases hb : parsePost blogName p with
  | error e => rw [hb] at h; cases h
  | ok base =>
    rw [hb] at h
    simp only at h
    cases hl : parsePhotosList (decide (1 < (p.photos.getD []).length)) 1
        (p.photos.getD []) with
    | error e => rw [hl] at h; cases h
    | ok r =>
      obtain ⟨tps, recs⟩ := r
      rw [hl] at h
      cases h
      exact ⟨recs, rfl, rfl, rfl⟩

theorem parsePhotoSet_okE (blogName : String) (p : RawPost)
    (ps : TumblrPhotoSet) (p' : RawPost)
    (h : parsePhotoSet blogName p = Except.ok (ps, p')) :
    ∃ ps0, photoSetParsePost blogName p = Except.ok (ps0, p')
      ∧ ps = { ps0 with title := Option.none } := by
  unfold parsePhotoSet at h
  cases hb : photoSetParsePost blogName p with
  | error e => rw [hb] at h; cases h
  | ok r =>
    rw [hb] at h
    simp only [Except.map] at h
    cases h
    exact ⟨r.1, rfl, rfl⟩

/-- Alternate sizes with widths 100, 400 and 250 (C1's concrete scenario). -/
def sizes100x400x250 : List SizeRec :=
  [ [("url", PyVal.str "http://x/a100.jpg"), ("width", PyVal.int 100)],
    [("url", PyVal.str "http://x/a400.jpg"), ("width", PyVal.int 400)],
    [("url", PyVal.str "http://x/a250.jpg"), ("width", PyVal.int 250)] ]

/-- A photo record with no original size, only the alternate sizes. -/
def photoAltOnly : PhotoRec :=
  { original_size := Option.none, alt_sizes := some sizes100x400x250 }

/-- A concrete original-size record, deliberately narrower than the
alternates. -/
def origSizeRec : SizeRec :=
  [("url", PyVal.str "http://x/orig.jpg"), ("width", PyVal.int 50)]

/-- A photo record with both an original size and the alternate sizes. -/
def photoWithOrig : PhotoRec :=
  { original_size := some origSizeRec, alt_sizes := some sizes100x400x250 }

/-- C1: a present original size is selected regardless of any width
comparison — that half of the claim holds.  The alternate-sizes half fails on
the code: for widths [100, 400, 250] with no original size, the source's
`max(photo['alt_sizes'], key='width')` passes the string `'width'` as the key
function, so the call raises `TypeError` instead of selecting the 400-width
entry. -/
theorem c1_best_size_selection :
    selectBestSize photoWithOrig = Except.ok origSizeRec
    ∧ selectBestSize photoAltOnly = Except.error PyErr.typeError :=
  ⟨rfl, rfl⟩

/-- A photo record of the C2 scenario: one original size per photo. -/
def tripPhoto (u : String) : PhotoRec :=
  { original_size := some [("url", PyVal.str u), ("width", PyVal.int 1280)],
    alt_sizes := some [] }

/-- The C2 scenario input: photo-set post 42 of blog `example` with three
photos and caption `Trip`. -/
def rawTrip : RawPost :=
  { id := some 42, type := some "photo", post_url := Option.none,
    tags := Option.none, note_count := Option.none, date := some "2016-01-01",
    caption := some "Trip", title := Option.none,
    photos := some [tripPhoto "http://example.com/trip1.jpg",
                    tripPhoto "http://example.com/trip2.jpg",
                    tripPhoto "http://example.com/trip3.jpg"] }

/-- The C2 context: save root `/out`, all three categorization toggles on. -/
def ctxAllOn : CliContext :=
  { savePath := "/out", catUser := true, catPostType := true,
    catPhotosets := true }

/-- Fallback element for list indexing. -/
def dummyPhoto : TumblrPhoto :=
  { url := "", width := Option.none, height := Option.none,
    page_no := Option.none }

/-- C2: in the claimed scenario the code does record the progress annotation
`2 / 3`, but the resolved path is `/out/example/photos/42/p2_None.jpg`, not
`/out/example/photos/42/p2_Trip.jpg`: the constructor has reset the set's
title to `None` (line 100, executed after `_parse_post`), and the filename
format renders that `None` literally.  Independently of the title, in CPython
every `TumblrPhoto.filepath` call raises `TypeError` before composing any
path, because the call `super().filepath(context)` at line 208 omits the
mandatory `request_data` parameter of the base signature (line 154); the path
computed here is the one the body's path logic yields for the page-2
photo. -/
theorem c2_end_to_end_scenario :
    ((parsePhotoSet "example" rawTrip).toOption).map (fun r =>
        (r.1.files.length,
         photoFilepathRun sanitizeModel ctxAllOn r.1 (r.1.files.getD 1 dummyPhoto) []))
      = some (3, ("/out/example/photos/42/p2_None.jpg",
          [("Caption", (Option.none : Option String)),
           ("Photoset Page", some "2 / 3")])) := by
  decide

/-- The C5 photo-set: two photos, title unset (as it always is after
construction, see `parsePhotoSet`). -/
def psUnset : TumblrPhotoSet :=
  { id := 9, type := "photo", url := Option.none, tags := [],
    note_count := Option.none, post_date := "d", blog := "b",
    title := Option.none,
    files := [ { url := "http://x/pic1.jpg", width := Option.none,
                 height := Option.none, page_no := some 1 },
               { url := "http://x/pic2.jpg", width := Option.none,
                 height := Option.none, page_no := some 2 } ] }

/-- The page-2 child of `psUnset`. -/
def photoPage2 : TumblrPhoto :=
  { url := "http://x/pic2.jpg", width := Option.none, height := Option.none,
    page_no := some 2 }

/-- The C5 context: save root `/out`, every toggle off. -/
def ctxPlain : CliContext :=
  { savePath := "/out", catUser := false, catPostType := false,
    catPhotosets := false }

/-- C5: resolving the path of a photo whose owning set has an unset title
surfaces no error at all: the paginated filename format renders the `None`
title as the literal string `None` and resolution returns a well-formed path
embedding it, together with a `None` caption annotation.  No `UnresolvedTitle`
error exists anywhere in the source — and since line 100 always resets the
title to `None`, this is the situation of every constructed photo-set. -/
theorem c5_unset_title_yields_path_not_error :
    photoFilepathRun sanitizeModel ctxPlain psUnset photoPage2 []
      = ("/out/p2_None.jpg",
         [("Caption", (Option.none : Option String)),
          ("Photoset Page", some "2 / 2")]) := by
  decide

/-- C7: the claim speaks of the byte-identical paths two equal-state calls
return, but path resolution never returns a path: every invocation of
`TumblrPhoto.filepath` raises `TypeError` at line 208 (the `super()` call
omits the mandatory `request_data` argument).  Two calls with the same
entity state and context — indeed with any side-channel contents — do agree,
but only on that error; no `Except.ok` path value is ever produced. -/
theorem c7_no_path_returned (san : Option String → String) (ctx : CliContext)
    (ps : TumblrPhotoSet) (photo : TumblrPhoto)
    (rd rd' : List (String × Option String)) :
    photoFilepath san ctx ps photo rd = photoFilepath san ctx ps photo rd'
    ∧ photoFilepath san ctx ps photo rd = Except.error PyErr.typeError
    ∧ ∀ path progress,
        photoFilepath san ctx ps photo rd ≠ Except.ok (path, progress) :=
  ⟨rfl, rfl, fun path progress hc => by cases hc⟩

/-- The C8 input: both a caption and a title field present. -/
def rawCapAndTitle : RawPost :=
  { id := some 5, type := some "photo", post_url := Option.none,
    tags := Option.none, note_count := Option.none, date := some "d",
    caption := some "Trip", title := some "Fallback", photos := Option.none }

/-- C8: at the parse step (line 107) the fallback indeed prefers the caption,
but the claim fails on the constructed entity: line 100 runs after
`super().__init__` — hence after `_parse_post` — and unconditionally
overwrites the resolved title, so every constructed photo-set has an unset
title regardless of caption or title fields. -/
theorem c8_title_fallback_overwritten :
    (photoSetParsePost "b" rawCapAndTitle).map (fun r => r.1.title)
        = Except.ok (some "Trip")
    ∧ (parsePhotoSet "b" rawCapAndTitle).map (fun r => r.1.title)
        = Except.ok (Option.none : Option String) :=
  ⟨rfl, rfl⟩

/-- The C10 input: the caption key present with an empty string value, next
to a non-empty title field. -/
def rawEmptyCaption : RawPost :=
  { id := some 6, type := some "photo", post_url := Option.none,
    tags := Option.none, note_count := Option.none, date := some "d",
    caption := some "", title := some "Fallback", photos := Option.none }

/-- C10: the line-107 fallback is keyed on key absence, not emptiness — with
the caption key present but empty, the parse step resolves the empty string
and never consults the title field — but the claim still fails on the
constructed entity, whose title is overwritten to `None` by line 100. -/
theorem c10_empty_caption_not_defaulted :
    (photoSetParsePost "b" rawEmptyCaption).map (fun r => r.1.title)
        = Except.ok (some "")
    ∧ (parsePhotoSet "b" rawEmptyCaption).map (fun r => r.1.title)
        = Except.ok (Option.none : Option String) :=
  ⟨rfl, rfl⟩

/-- C3: for a photo-set input whose parse succeeds with N photos, the parser
produces N child photos; when N > 1 their page numbers are exactly
1, 2, ..., N in source order — strictly increasing, no gaps, no duplicates —
and when N = 1 the single child carries no page number (the absent/False
sentinel, distinct from page 1). -/
theorem c3_page_numbering (blogName : String) (p : RawPost)
    (ps : TumblrPhotoSet) (p' : RawPost)
    (h : parsePhotoSet blogName p = Except.ok (ps, p')) :
    ps.files.length = (p.photos.getD []).length
    ∧ (1 < (p.photos.getD []).length →
        ps.files.map (fun f => f.page_no)
          = (List.range (p.photos.getD []).length).map
              (fun j => some (Int.ofNat (j + 1))))
    ∧ ((p.photos.getD []).length = 1 →
        ps.files.map (fun f => f.page_no) = [Option.none]) := by
  obtain ⟨ps0, hps0, hps⟩ := parsePhotoSet_okE _ _ _ _ h
  obtain ⟨recs, hl, hp2, htitle⟩ := photoSetParsePost_shape _ _ _ _ hps0
  have hmap := (parsePhotosList_ok _ _ 1 _ _ hl).1
  have hfiles : ps.files = ps0.files := by rw [hps]
  rw [hfiles]
  refine ⟨?_, ?_, ?_⟩
  · have hlen := congrArg List.length hmap
    simpa using hlen
  · intro hN
    have hd : decide (1 < (p.photos.getD []).length) = true := by
      simpa using hN
    rw [hmap, hd]
    congr 1
    funext j
    show some (Int.ofNat (1 + j)) = some (Int.ofNat (j + 1))
    congr 2
    omega
  · intro h1
    rw [hmap, h1]
    simp

/-- A photo record used by the C3 witness. -/
def pairPhoto (u : String) : PhotoRec :=
  { original_size := some [("url", PyVal.str u)], alt_sizes := some [] }

/-- The C3 witness input: a two-photo set. -/
def rawPair : RawPost :=
  { id := some 8, type := some "photo", post_url := Option.none,
    tags := Option.none, note_count := Option.none, date := some "d",
    caption := Option.none, title := Option.none,
    photos := some [pairPhoto "a.jpg", pairPhoto "b.jpg"] }

/-- The photo-set `rawPair` parses to. -/
def psPair : TumblrPhotoSet :=
  { id := 8, type := "photo", url := Option.none, tags := [],
    note_count := Option.none, post_date := "d", blog := "b",
    title := Option.none,
    files := [ { url := "a.jpg", width := Option.none, height := Option.none,
                 page_no := some 1 },
               { url := "b.jpg", width := Option.none, height := Option.none,
                 page_no := some 2 } ] }

/-- The first photo record of `rawPair` after the in-place `page_no` write. -/
def pairPhotoMutA : PhotoRec :=
  { original_size := some [("url", PyVal.str "a.jpg"), ("page_no", PyVal.int 1)],
    alt_sizes := some [] }

/-- The second photo record of `rawPair` after the in-place `page_no` write. -/
def pairPhotoMutB : PhotoRec :=
  { original_size := some [("url", PyVal.str "b.jpg"), ("page_no", PyVal.int 2)],
    alt_sizes := some [] }

/-- The raw mapping as it stands after parsing `rawPair`. -/
def rawPairMut : RawPost :=
  { rawPair with photos := some [pairPhotoMutA, pairPhotoMutB] }

/-- C3 witness: page numbering at a concrete two-photo input. -/
theorem c3_witness :
    psPair.files.length = 2
    ∧ psPair.files.map (fun f => f.page_no) = [some 1, some 2] := by
  have h := c3_page_numbering "b" rawPair psPair rawPairMut (by decide)
  refine ⟨h.1.trans rfl, ?_⟩
  have h2 := h.2.1 (by decide)
  exact h2.trans (by decide)

/-- C4: base post parsing succeeds exactly when `id`, `type` and `date` are
all present, and on success those three fields round-trip into the parsed
post unchanged. -/
theorem c4_required_fields_roundtrip (blogName : String) (p : RawPost) :
    (isOkB (parsePost blogName p) = true
        ↔ (p.id.isSome ∧ p.type.isSome ∧ p.date.isSome))
    ∧ (∀ post, parsePost blogName p = Except.ok post →
        p.id = some post.id ∧ p.type = some post.type
          ∧ p.date = some post.post_date) := by
  constructor
  · cases hi : p.id <;> cases ht : p.type <;> cases hd : p.date <;>
      simp [parsePost, isOkB, hi, ht, hd]
  · intro post h
    unfold parsePost at h
    cases hi : p.id with
    | none => rw [hi] at h; cases h
    | some i =>
      rw [hi] at h
      cases ht : p.type with
      | none => rw [ht] at h; cases h
      | some t =>
        rw [ht] at h
        cases hd : p.date with
        | none => rw [hd] at h; cases h
        | some d =>
          rw [hd] at h
          cases h
          exact ⟨rfl, rfl, rfl⟩

/-- The C4 witness input: the three required keys present. -/
def rawMinimal : RawPost :=
  { id := some 7, type := some "text", post_url := Option.none,
    tags := Option.none, note_count := Option.none, date := some "2015-05-05",
    caption := Option.none, title := Option.none, photos := Option.none }

/-- The post `rawMinimal` parses to. -/
def postMinimal : TumblrPost :=
  { id := 7, type := "text", url := Option.none, tags := [],
    note_count := Option.none, post_date := "2015-05-05", blog := "b" }

/-- C4 witness: the round-trip equalities at a concrete input. -/
theorem c4_witness :
    rawMinimal.id = some postMinimal.id
    ∧ rawMinimal.type = some postMinimal.type
    ∧ rawMinimal.date = some postMinimal.post_date :=
  (c4_required_fields_roundtrip "b" rawMinimal).2 postMinimal rfl

/-- Context with only the categorize-by-user toggle on. -/
def ctxOnlyUser (root : String) : CliContext :=
  { savePath := root, catUser := true, catPostType := false,
    catPhotosets := false }

/-- Context with every categorization toggle off. -/
def ctxNoCat (root : String) : CliContext :=
  { savePath := root, catUser := false, catPostType := false,
    catPhotosets := false }

/-- Context with only the categorize-by-photoset toggle on. -/
def ctxOnlyPhotosets (root : String) : CliContext :=
  { savePath := root, catUser := false, catPostType := false,
    catPhotosets := true }

/-- C6: the claim compares the paths yielded with only categorize-by-user
on, with only categorize-by-photoset on, and with all toggles off — but the
code yields no path under any of these configurations: every invocation of
`TumblrPhoto.filepath` raises `TypeError` at line 208 (the `super()` call
omits the mandatory `request_data` argument), so there is never a path that
could differ by a blog-name segment, nor one the photoset toggle could leave
unchanged. -/
theorem c6_no_path_to_compare (san : Option String → String) (root : String)
    (ps : TumblrPhotoSet) (photo : TumblrPhoto)
    (rd : List (String × Option String)) :
    photoFilepath san (ctxOnlyUser root) ps photo rd
        = Except.error PyErr.typeError
    ∧ photoFilepath san (ctxNoCat root) ps photo rd
        = Except.error PyErr.typeError
    ∧ photoFilepath san (ctxOnlyPhotosets root) ps photo rd
        = Except.error PyErr.typeError :=
  ⟨rfl, rfl, rfl⟩

/-- The single photo record of the C9 input. -/
def onePhotoRec : PhotoRec :=
  { original_size := some [("url", PyVal.str "http://x/a.jpg")],
    alt_sizes := some [] }

/-- `onePhotoRec` after the in-place `page_no` write (a single photo, so the
`False` sentinel is written). -/
def onePhotoRecMut : PhotoRec :=
  { original_size := some [("url", PyVal.str "http://x/a.jpg"),
                           ("page_no", PyVal.bool false)],
    alt_sizes := some [] }

/-- The C9 input mapping: a well-formed one-photo post. -/
def rawOne : RawPost :=
  { id := some 1, type := some "photo", post_url := Option.none,
    tags := Option.none, note_count := Option.none, date := some "d",
    caption := Option.none, title := Option.none,
    photos := some [onePhotoRec] }

/-- The C9 input mapping as it stands after parsing. -/
def rawOneMut : RawPost := { rawOne with photos := some [onePhotoRecMut] }

/-- The photo-set `rawOne` parses to. -/
def psOne : TumblrPhotoSet :=
  { id := 1, type := "photo", url := Option.none, tags := [],
    note_count := Option.none, post_date := "d", blog := "b",
    title := Option.none,
    files := [ { url := "http://x/a.jpg", width := Option.none,
                 height := Option.none, page_no := Option.none } ] }

/-- C9 counterexample: parsing this one-photo input succeeds and hands back
the raw mapping with a `page_no` key written into the photo's original-size
record — line 114 assigns into `best_size`, which is the input's
`original_size` dict — so the input mapping is not left unchanged. -/
theorem c9_counterexample :
    parsePhotoSet "b" rawOne = Except.ok (psOne, rawOneMut)
    ∧ rawOneMut ≠ rawOne :=
  ⟨by decide, by decide⟩

/-- C9 amended: parsing leaves every top-level field of the raw mapping
except `photos` unchanged, preserves the number and order of the photo
records and their `alt_sizes`, and changes each photo record only by writing
a `page_no` key into its selected original-size record — the 1-based page
index when the set has more than one photo, the `False` sentinel
otherwise. -/
theorem c9_parse_mutates_only_page_no (blogName : String) (p : RawPost)
    (ps : TumblrPhotoSet) (p' : RawPost)
    (h : parsePhotoSet blogName p = Except.ok (ps, p')) :
    (p'.id = p.id ∧ p'.type = p.type ∧ p'.post_url = p.post_url
      ∧ p'.tags = p.tags ∧ p'.note_count = p.note_count ∧ p'.date = p.date
      ∧ p'.caption = p.caption ∧ p'.title = p.title)
    ∧ (p'.photos.getD []).length = (p.photos.getD []).length
    ∧ (∀ i q q', (p.photos.getD [])[i]? = some q →
         (p'.photos.getD [])[i]? = some q' →
         q'.alt_sizes = q.alt_sizes
         ∧ ∃ s, q.original_size = some s
             ∧ q'.original_size = some (dictSet s "page_no"
                 (if 1 < (p.photos.getD []).length then
                    PyVal.int (Int.ofNat (i + 1))
                  else PyVal.bool false))) := by
  obtain ⟨ps0, hps0, hps⟩ := parsePhotoSet_okE _ _ _ _ h
  obtain ⟨recs, hl, hp2, htitle⟩ := photoSetParsePost_shape _ _ _ _ hps0
  obtain ⟨hmap, hlen, hidx⟩ := parsePhotosList_ok _ _ 1 _ _ hl
  subst hp2
  refine ⟨⟨rfl, rfl, rfl, rfl, rfl, rfl, rfl, rfl⟩, ?_, ?_⟩
  · cases hph : p.photos with
    | none => rfl
    | some l =>
      rw [hph] at hlen
      simpa using hlen
  · intro i q q' hq hq'
    cases hph : p.photos with
    | none =>
      rw [hph] at hq
      simp at hq
    | some l =>
      rw [hph] at hq'
      simp at hq'
      obtain ⟨ha, s, hs1, hs2⟩ := hidx i q q' hq hq'
      refine ⟨ha, s, hs1, ?_⟩
      rw [hph] at hs2
      simp only [Option.getD_some] at hs2 ⊢
      rw [hs2]
      by_cases hN : 1 < l.length
      · rw [if_pos (by simpa using hN), if_pos hN]
        have e : 1 + i = i + 1 := by omega
        rw [e]
      · rw [if_neg (by simpa using hN), if_neg hN]

/-- C9 witness for the amended claim: applying it at the concrete one-photo
input shows the untouched top-level fields. -/
theorem c9_amended_witness :
    rawOneMut.caption = rawOne.caption ∧ rawOneMut.tags = rawOne.tags := by
  have h := c9_parse_mutates_only_page_no "b" rawOne psOne rawOneMut (by decide)
  exact ⟨h.1.2.2.2.2.2.2.1, h.1.2.2.2.1⟩
